import Mathlib

/-!
# Countdown scheduler (`scheduler.h`, `scheduler.cpp`)

A shallow embedding of the `Scheduler` class and theorems about it.

Modelling decisions.

* `unsigned long` values are natural numbers; the only arithmetic in the class is the
  pre-decrement `--remaining` in `count_down`, which is taken modulo `2 ^ w`, where `w`
  is the width of `unsigned long` in bits (32 on the ATmega32).
* A function pointer `void (*)(void)` is `Option Nat`: `none` is `nullptr`, `some a` is the
  function at address `a`.
* Calling through a function pointer appends a `Call` record to a log kept next to the
  object.  The record holds the member the call went through, the address called and a copy of
  the object as it was at the moment of the call.  The called function itself is outside the
  class; it is assumed not to write to the object it is attached to.
-/

namespace Sched

/-- The enumeration `Scheduler::Scheduler_state`, in declaration order. -/
inductive Scheduler_state
  | TIMEOUT
  | RUNNING
  | HOLD
  | RESTART
  | RESET
  deriving DecidableEq

/-- A value of type `void (*)(void)`; `none` stands for `nullptr`. -/
abbrev FnPtr := Option Nat

/-- The private data members of `class Scheduler`. -/
structure Scheduler where
  preset : Nat
  remaining : Nat
  state : Scheduler_state
  on_timeout : FnPtr
  on_restart : FnPtr
  deriving DecidableEq

/-- The data member a call goes through. -/
inductive Slot
  | on_timeout
  | on_restart
  deriving DecidableEq

/-- One call through a function pointer: the member used, the address called, and the object
as the called function finds it. -/
structure Call where
  slot : Slot
  fn : Nat
  seen : Scheduler
  deriving DecidableEq

/-- An object together with the calls it has made so far, oldest first. -/
structure Sys where
  self : Scheduler
  calls : List Call
  deriving DecidableEq

/-- The statement `if (f != nullptr) f();` for the pointer `f` read from member `slot`. -/
def invoke (slot : Slot) (f : FnPtr) (m : Sys) : Sys :=
  match f with
  | none => m
  | some a => { m with calls := m.calls ++ [⟨slot, a, m.self⟩] }

/-- The constructor `Scheduler::Scheduler(pre, p_on_timeout, p_on_restart)`. -/
def Scheduler_ctor (pre : Nat) (p_on_timeout : FnPtr) (p_on_restart : FnPtr) : Sys :=
  { self :=
      { preset := pre
        remaining := pre
        on_timeout := p_on_timeout
        on_restart := p_on_restart
        state := Scheduler_state.HOLD }
    calls := [] }

/-- The constructor `Scheduler::Scheduler()`, used for arrays of schedulers. -/
def Scheduler_ctor0 : Sys :=
  { self :=
      { preset := 0
        remaining := 0
        on_timeout := none
        on_restart := none
        state := Scheduler_state.HOLD }
    calls := [] }

/-- The method `Scheduler::set_preset`. -/
def set_preset (m : Sys) (pre : Nat) : Sys :=
  { m with self := { m.self with preset := pre } }

/-- The method `Scheduler::get_preset`. -/
def get_preset (m : Sys) : Nat :=
  m.self.preset

/-- The method `Scheduler::set_on_timeout`. -/
def set_on_timeout (m : Sys) (f : FnPtr) : Sys :=
  { m with self := { m.self with on_timeout := f } }

/-- The method `Scheduler::set_on_restart`. -/
def set_on_restart (m : Sys) (f : FnPtr) : Sys :=
  { m with self := { m.self with on_restart := f } }

/-- The method `Scheduler::get_state`. -/
def get_state (m : Sys) : Scheduler_state :=
  m.self.state

/-- The method `Scheduler::get_remaining`. -/
def get_remaining (m : Sys) : Nat :=
  m.self.remaining

/-- The method `Scheduler::restart`. -/
def restart (m : Sys) : Sys :=
  let m1 : Sys := { m with self := { m.self with state := Scheduler_state.RUNNING } }
  invoke Slot.on_restart m1.self.on_restart m1

/-- The method `Scheduler::reset`. -/
def reset (m : Sys) : Sys :=
  let m1 : Sys := { m with self := { m.self with remaining := m.self.preset } }
  { m1 with self := { m1.self with state := Scheduler_state.HOLD } }

/-- The method `Scheduler::hold`. -/
def hold (m : Sys) : Sys :=
  { m with self := { m.self with state := Scheduler_state.HOLD } }

/-- The method `Scheduler::process` with its argument given. -/
def process (m : Sys) (action : Scheduler_state) : Sys :=
  if Scheduler_state.TIMEOUT = m.self.state then
    let m1 : Sys := { m with self := { m.self with remaining := m.self.preset } }
    let m2 : Sys :=
      if Scheduler_state.RESTART = action then
        { m1 with self := { m1.self with state := Scheduler_state.RUNNING } }
      else
        { m1 with self := { m1.self with state := Scheduler_state.HOLD } }
    invoke Slot.on_timeout m2.self.on_timeout m2
  else
    m

/-- The call `process()`: the header gives `action` the default `Scheduler_state::RESTART`. -/
def process_default (m : Sys) : Sys :=
  process m Scheduler_state.RESTART

/-- The pre-decrement `--remaining` on an `unsigned long` of `w` bits. -/
def pre_decrement (w : Nat) (r : Nat) : Nat :=
  (r + 2 ^ w - 1) % 2 ^ w

/-- The method `Scheduler::count_down`; the first component is the value returned. -/
def count_down (w : Nat) (m : Sys) : Nat × Sys :=
  let m2 : Sys :=
    if Scheduler_state.RUNNING = m.self.state then
      let m1 : Sys := { m with self := { m.self with remaining := pre_decrement w m.self.remaining } }
      if m1.self.remaining = 0 then
        { m1 with self := { m1.self with state := Scheduler_state.TIMEOUT } }
      else
        m1
    else
      m
  (m2.self.remaining, m2)

/-- The object after `n` successive calls of `count_down`, return values dropped. -/
def count_downs (w : Nat) : Nat → Sys → Sys
  | 0, m => m
  | n + 1, m => (count_down w (count_downs w n m)).2

/-- One call of a public member function, with its arguments. -/
inductive Op
  | set_preset (pre : Nat)
  | set_on_timeout (f : FnPtr)
  | set_on_restart (f : FnPtr)
  | reset
  | restart
  | hold
  | count_down
  | process (action : Scheduler_state)
  deriving DecidableEq

/-- The object after the call `op`; the value `count_down` returns is dropped. -/
def step (w : Nat) (m : Sys) : Op → Sys
  | Op.set_preset pre => set_preset m pre
  | Op.set_on_timeout f => set_on_timeout m f
  | Op.set_on_restart f => set_on_restart m f
  | Op.reset => reset m
  | Op.restart => restart m
  | Op.hold => hold m
  | Op.count_down => (count_down w m).2
  | Op.process action => process m action

/-- The objects seen after each call of a sequence of calls, in order. -/
def states (w : Nat) : Sys → List Op → List Sys
  | _, [] => []
  | m, op :: ops => step w m op :: states w (step w m op) ops

/-- A call that keeps `remaining` within `preset`: `set_preset` with a value not below the
current `remaining`, `count_down` on anything but a RUNNING timer with `remaining = 0`, and
every other call. -/
def guarded (m : Sys) : Op → Bool
  | Op.set_preset pre => decide (m.self.remaining ≤ pre)
  | Op.count_down =>
      !(decide (m.self.state = Scheduler_state.RUNNING) && decide (m.self.remaining = 0))
  | _ => true

/-- Every call of the sequence is `guarded` in the object it is made on. -/
def all_guarded (w : Nat) : Sys → List Op → Bool
  | _, [] => true
  | m, op :: ops => guarded m op && all_guarded w (step w m op) ops

/-- A timer in state TIMEOUT with both callbacks set: built with preset 3, restarted and
counted down three times. -/
def timed_out_timer : Sys :=
  count_downs 32 3 (restart (Scheduler_ctor 3 (some 7) (some 9)))

/-- A timer on HOLD with `remaining = 4` below its preset 10 and both callbacks set. -/
def held_timer : Sys :=
  hold (set_preset (count_downs 32 2 (restart (Scheduler_ctor 6 (some 7) (some 9)))) 10)

/-- The object after a sequence of calls, made in order. -/
def run (w : Nat) : Sys → List Op → Sys
  | m, [] => m
  | m, op :: ops => run w (step w m op) ops

/-- The calls made through function pointers during the call `op` on `m`: what the call has
added to the list of calls. -/
def calls_during (w : Nat) (m : Sys) (op : Op) : List Call :=
  (step w m op).calls.drop m.calls.length

/-- The number of calls in a list that went through the member `slot`. -/
def count_slot (slot : Slot) (l : List Call) : Nat :=
  (l.filter (fun c => decide (c.slot = slot))).length

/-- A RUNNING timer part-way through its count: preset 6, `remaining = 4`, both callbacks
set. -/
def running_timer : Sys :=
  count_downs 32 2 (restart (Scheduler_ctor 6 (some 7) (some 9)))

end Sched

namespace Sched

/-! ## Arithmetic of the pre-decrement -/

theorem pre_decrement_pos (w r : Nat) (h1 : 1 ≤ r) (h2 : r < 2 ^ w) :
    pre_decrement w r = r - 1 := by
  unfold pre_decrement
  have e : r + 2 ^ w - 1 = (r - 1) + 2 ^ w := by omega
  rw [e, Nat.add_mod_right]
  exact Nat.mod_eq_of_lt (by omega)

theorem pre_decrement_zero (w : Nat) : pre_decrement w 0 = 2 ^ w - 1 := by
  unfold pre_decrement
  have hpos : 0 < 2 ^ w := Nat.pow_pos (by decide)
  rw [Nat.zero_add]
  exact Nat.mod_eq_of_lt (by omega)

theorem pre_decrement_lt (w r : Nat) : pre_decrement w r < 2 ^ w := by
  unfold pre_decrement
  exact Nat.mod_lt _ (Nat.pow_pos (by decide))

/-! ## One call of `count_down` -/

theorem count_down_running (w : Nat) (m : Sys) (hs : m.self.state = Scheduler_state.RUNNING) :
    (count_down w m).2 =
      { m with self :=
          { m.self with
            remaining := pre_decrement w m.self.remaining
            state := if pre_decrement w m.self.remaining = 0 then Scheduler_state.TIMEOUT
                     else Scheduler_state.RUNNING } } := by
  obtain ⟨⟨p, r, st, f, g⟩, l⟩ := m
  simp only at hs
  subst hs
  by_cases h : pre_decrement w r = 0 <;> simp [count_down, h]

theorem count_down_not_running (w : Nat) (m : Sys)
    (hs : m.self.state ≠ Scheduler_state.RUNNING) :
    count_down w m = (m.self.remaining, m) := by
  have h : ¬ Scheduler_state.RUNNING = m.self.state := fun e => hs e.symm
  simp [count_down, h]

theorem count_down_fst (w : Nat) (m : Sys) :
    (count_down w m).1 = (count_down w m).2.self.remaining := rfl

/-- After `reset(); restart()` on a timer with preset `p`, `1 ≤ p < 2 ^ w`, the object after
`k ≤ p` calls of `count_down` is known exactly. -/
theorem count_downs_after_reset_restart (w p : Nat) (m : Sys) (hp : p < 2 ^ w)
    (hpre : m.self.preset = p) (k : Nat) (hk : k ≤ p) (hk0 : 1 ≤ p) :
    (count_downs w k (restart (reset m))).self =
      { m.self with
        remaining := p - k
        state := if k = p then Scheduler_state.TIMEOUT else Scheduler_state.RUNNING } := by
  induction k with
  | zero =>
    obtain ⟨⟨p0, r, st, f, g⟩, l⟩ := m
    simp only at hpre
    subst hpre
    have hne : ¬ (0 = p0) := by omega
    cases g <;> simp [count_downs, restart, reset, invoke, hne]
  | succ k ih =>
    have ih1 := ih (by omega)
    have hne : ¬ (k = p) := by omega
    simp only [hne, if_false] at ih1
    have hrun : (count_downs w k (restart (reset m))).self.state = Scheduler_state.RUNNING := by
      rw [ih1]
    have hrem : (count_downs w k (restart (reset m))).self.remaining = p - k := by
      rw [ih1]
    show (count_down w (count_downs w k (restart (reset m)))).2.self = _
    rw [count_down_running w _ hrun, hrem, pre_decrement_pos w (p - k) (by omega) (by omega)]
    simp only [ih1]
    have e1 : p - k - 1 = p - (k + 1) := by omega
    by_cases hkp : k + 1 = p
    · have e2 : p - (k + 1) = 0 := by omega
      simp [e1, e2, hkp]
    · have e2 : ¬ (p - (k + 1) = 0) := by omega
      simp [e1, e2, hkp]

/-! ## Claims -/

/-- C1: for every preset `p` with `1 ≤ p < 2 ^ w` and every timer whose preset is `p`, after
`reset()` then `restart()` the timer after `k < p` calls of `count_down()` is RUNNING with
`remaining = p - k` (and the `k+1`-st call returns `p - (k+1)`, one less than before), and after
the `p`-th call it is in TIMEOUT with `remaining = 0`; so exactly `p` calls are needed to reach
TIMEOUT and `remaining` drops by exactly 1 per call. -/
theorem C1_count_down_exactly_preset_calls (w p : Nat) (m : Sys) (hp1 : 1 ≤ p)
    (hpw : p < 2 ^ w) (hpre : m.self.preset = p) :
    (∀ k, k < p →
        (count_downs w k (restart (reset m))).self.state = Scheduler_state.RUNNING ∧
        (count_downs w k (restart (reset m))).self.state ≠ Scheduler_state.TIMEOUT ∧
        (count_downs w k (restart (reset m))).self.remaining = p - k ∧
        (count_down w (count_downs w k (restart (reset m)))).1 = p - (k + 1) ∧
        (count_downs w (k + 1) (restart (reset m))).self.remaining + 1 =
          (count_downs w k (restart (reset m))).self.remaining) ∧
    (count_downs w p (restart (reset m))).self.state = Scheduler_state.TIMEOUT ∧
    (count_downs w p (restart (reset m))).self.remaining = 0 := by
  refine ⟨?_, ?_, ?_⟩
  · intro k hk
    have hne : ¬ (k = p) := by omega
    have a := count_downs_after_reset_restart w p m hpw hpre k (by omega) hp1
    have b := count_downs_after_reset_restart w p m hpw hpre (k + 1) (by omega) hp1
    have hb : (count_down w (count_downs w k (restart (reset m)))).2.self.remaining
        = p - (k + 1) := by
      show (count_downs w (k + 1) (restart (reset m))).self.remaining = _
      rw [b]
    refine ⟨?_, ?_, ?_, ?_, ?_⟩
    · rw [a]; simp [hne]
    · rw [a]; simp [hne]
    · rw [a]
    · rw [count_down_fst, hb]
    · rw [a, b]
      show p - (k + 1) + 1 = p - k
      omega
  · rw [count_downs_after_reset_restart w p m hpw hpre p (le_refl p) hp1]
    simp
  · rw [count_downs_after_reset_restart w p m hpw hpre p (le_refl p) hp1]
    simp

/-- Witness for C1 at `w = 32`, `p = 3`, on a freshly constructed timer. -/
theorem C1_count_down_exactly_preset_calls_witness :
    (1 ≤ 3 ∧ 3 < 2 ^ 32 ∧ (Scheduler_ctor 3 (some 1) none).self.preset = 3) ∧
    ((∀ k, k < 3 →
        (count_downs 32 k (restart (reset (Scheduler_ctor 3 (some 1) none)))).self.state
          = Scheduler_state.RUNNING ∧
        (count_downs 32 k (restart (reset (Scheduler_ctor 3 (some 1) none)))).self.state
          ≠ Scheduler_state.TIMEOUT ∧
        (count_downs 32 k (restart (reset (Scheduler_ctor 3 (some 1) none)))).self.remaining
          = 3 - k ∧
        (count_down 32
          (count_downs 32 k (restart (reset (Scheduler_ctor 3 (some 1) none))))).1
          = 3 - (k + 1) ∧
        (count_downs 32 (k + 1)
          (restart (reset (Scheduler_ctor 3 (some 1) none)))).self.remaining + 1 =
          (count_downs 32 k (restart (reset (Scheduler_ctor 3 (some 1) none)))).self.remaining) ∧
    (count_downs 32 3 (restart (reset (Scheduler_ctor 3 (some 1) none)))).self.state
      = Scheduler_state.TIMEOUT ∧
    (count_downs 32 3 (restart (reset (Scheduler_ctor 3 (some 1) none)))).self.remaining = 0) :=
  ⟨⟨by decide, by decide, rfl⟩,
    C1_count_down_exactly_preset_calls 32 3 (Scheduler_ctor 3 (some 1) none)
      (by decide) (by decide) rfl⟩

/-- C2: `count_down()` on the placeholder timer after `restart()` (RUNNING, `remaining = 0`)
returns `2 ^ 32 - 1` and stays RUNNING, so `remaining` after the call is above its value before
the call: the counter wraps around. -/
theorem C2_count_down_wraps_at_zero :
    (restart Scheduler_ctor0).self.state = Scheduler_state.RUNNING ∧
    (restart Scheduler_ctor0).self.remaining = 0 ∧
    (count_down 32 (restart Scheduler_ctor0)).1 = 4294967295 ∧
    (count_down 32 (restart Scheduler_ctor0)).2.self.state = Scheduler_state.RUNNING ∧
    ¬ ((count_down 32 (restart Scheduler_ctor0)).2.self.remaining
        ≤ (restart Scheduler_ctor0).self.remaining) := by
  decide

/-! ### C3 -/

theorem step_keeps_remaining_le_preset (w : Nat) (m : Sys) (op : Op)
    (hinv : m.self.remaining ≤ m.self.preset) (hg : guarded m op = true) :
    (step w m op).self.remaining ≤ (step w m op).self.preset := by
  obtain ⟨⟨p, r, st, f, g⟩, l⟩ := m
  simp only at hinv
  cases op with
  | set_preset pre => simpa [guarded, step, set_preset] using hg
  | set_on_timeout f1 => simpa [step, set_on_timeout] using hinv
  | set_on_restart f1 => simpa [step, set_on_restart] using hinv
  | reset => simp [step, reset]
  | restart => cases g <;> simpa [step, restart, invoke] using hinv
  | hold => simpa [step, hold] using hinv
  | count_down =>
    by_cases hs : st = Scheduler_state.RUNNING
    · subst hs
      have hr : r ≠ 0 := by simpa [guarded] using hg
      have hle : pre_decrement w r ≤ p := by
        by_cases hlt : r < 2 ^ w
        · rw [pre_decrement_pos w r (by omega) hlt]; omega
        · have := pre_decrement_lt w r; omega
      show (count_down w _).2.self.remaining ≤ (count_down w _).2.self.preset
      rw [count_down_running w _ rfl]
      exact hle
    · show (count_down w _).2.self.remaining ≤ (count_down w _).2.self.preset
      rw [count_down_not_running w _ hs]
      exact hinv
  | process action =>
    by_cases hs : Scheduler_state.TIMEOUT = st
    · subst hs
      by_cases ha : Scheduler_state.RESTART = action <;>
        cases f <;> simp [step, process, invoke, ha]
    · simpa [step, process, hs] using hinv

theorem states_keep_remaining_le_preset (w : Nat) (ops : List Op) :
    ∀ m : Sys, m.self.remaining ≤ m.self.preset → all_guarded w m ops = true →
      ∀ t ∈ states w m ops, t.self.remaining ≤ t.self.preset := by
  induction ops with
  | nil => intro m _ _ t ht; simp [states] at ht
  | cons op ops ih =>
    intro m hinv hg t ht
    simp only [all_guarded, Bool.and_eq_true] at hg
    have h1 := step_keeps_remaining_le_preset w m op hinv hg.1
    simp only [states, List.mem_cons] at ht
    rcases ht with ht | ht
    · rw [ht]; exact h1
    · exact ih (step w m op) h1 hg.2 t ht

/-- C3 as stated fails: the full constructor with preset 5 followed by `set_preset(2)` leaves
`remaining = 5` above `preset = 2`. -/
theorem C3_set_preset_breaks_bound :
    ¬ (∀ t ∈ states 32 (Scheduler_ctor 5 (some 1) none) [Op.set_preset 2],
        0 ≤ t.self.remaining ∧ t.self.remaining ≤ t.self.preset) := by
  decide

/-- C3, amended: in every state reached from either constructor by a finite sequence of public
calls in which each `set_preset(v)` has `v` at least the current `remaining` and `count_down()`
is not called on a RUNNING timer whose `remaining` is 0, `0 ≤ remaining ≤ preset` holds after
each call. -/
theorem C3_remaining_le_preset_guarded (w : Nat) (m0 : Sys) (ops : List Op)
    (hinit : (∃ p f g, m0 = Scheduler_ctor p f g) ∨ m0 = Scheduler_ctor0)
    (hg : all_guarded w m0 ops = true) :
    ∀ t ∈ states w m0 ops, 0 ≤ t.self.remaining ∧ t.self.remaining ≤ t.self.preset := by
  have h0 : m0.self.remaining ≤ m0.self.preset := by
    rcases hinit with ⟨p, f, g, rfl⟩ | rfl
    · exact le_refl _
    · exact le_refl _
  intro t ht
  exact ⟨Nat.zero_le _, states_keep_remaining_le_preset w ops m0 h0 hg t ht⟩

/-- Witness for C3 (amended): a timer with preset 2 is restarted, counted down to TIMEOUT,
processed, given the larger preset 4, reset and held. -/
theorem C3_remaining_le_preset_guarded_witness :
    ((∃ p f g, Scheduler_ctor 2 (some 1) (some 2) = Scheduler_ctor p f g) ∨
      Scheduler_ctor 2 (some 1) (some 2) = Scheduler_ctor0) ∧
    all_guarded 32 (Scheduler_ctor 2 (some 1) (some 2))
      [Op.restart, Op.count_down, Op.count_down, Op.process Scheduler_state.RESTART,
        Op.set_preset 4, Op.reset, Op.hold] = true ∧
    (∀ t ∈ states 32 (Scheduler_ctor 2 (some 1) (some 2))
      [Op.restart, Op.count_down, Op.count_down, Op.process Scheduler_state.RESTART,
        Op.set_preset 4, Op.reset, Op.hold],
      0 ≤ t.self.remaining ∧ t.self.remaining ≤ t.self.preset) :=
  ⟨Or.inl ⟨2, some 1, some 2, rfl⟩, by decide,
    C3_remaining_le_preset_guarded 32 (Scheduler_ctor 2 (some 1) (some 2))
      [Op.restart, Op.count_down, Op.count_down, Op.process Scheduler_state.RESTART,
        Op.set_preset 4, Op.reset, Op.hold]
      (Or.inl ⟨2, some 1, some 2, rfl⟩) (by decide)⟩

/-! ### C4 to C7: `process` and `count_down` by state -/

/-- C4: on a timer in state TIMEOUT, `process(RESTART)`, which is also what `process()` does,
sets `remaining = preset` and `state = RUNNING`, leaves `preset` and both callback pointers
unchanged, and calls `on_timeout` exactly once if it is set (not at all if it is null); the call
comes after the field updates, so the callback finds `remaining = preset` and
`state = RUNNING`. -/
theorem C4_process_restart_from_timeout (m : Sys)
    (hs : m.self.state = Scheduler_state.TIMEOUT) :
    process_default m = process m Scheduler_state.RESTART ∧
    (process m Scheduler_state.RESTART).self.remaining = m.self.preset ∧
    (process m Scheduler_state.RESTART).self.state = Scheduler_state.RUNNING ∧
    (process m Scheduler_state.RESTART).self.preset = m.self.preset ∧
    (process m Scheduler_state.RESTART).self.on_timeout = m.self.on_timeout ∧
    (process m Scheduler_state.RESTART).self.on_restart = m.self.on_restart ∧
    (m.self.on_timeout = none → (process m Scheduler_state.RESTART).calls = m.calls) ∧
    (∀ a, m.self.on_timeout = some a →
      (process m Scheduler_state.RESTART).calls =
        m.calls ++ [⟨Slot.on_timeout, a,
          { m.self with remaining := m.self.preset, state := Scheduler_state.RUNNING }⟩]) := by
  obtain ⟨⟨p, r, st, f, g⟩, l⟩ := m
  simp only at hs
  subst hs
  cases f <;> simp [process_default, process, invoke]

/-- Witness for C4 on `timed_out_timer`. -/
theorem C4_process_restart_from_timeout_witness :
    timed_out_timer.self.state = Scheduler_state.TIMEOUT ∧
    (process_default timed_out_timer = process timed_out_timer Scheduler_state.RESTART ∧
    (process timed_out_timer Scheduler_state.RESTART).self.remaining
      = timed_out_timer.self.preset ∧
    (process timed_out_timer Scheduler_state.RESTART).self.state = Scheduler_state.RUNNING ∧
    (process timed_out_timer Scheduler_state.RESTART).self.preset
      = timed_out_timer.self.preset ∧
    (process timed_out_timer Scheduler_state.RESTART).self.on_timeout
      = timed_out_timer.self.on_timeout ∧
    (process timed_out_timer Scheduler_state.RESTART).self.on_restart
      = timed_out_timer.self.on_restart ∧
    (timed_out_timer.self.on_timeout = none →
      (process timed_out_timer Scheduler_state.RESTART).calls = timed_out_timer.calls) ∧
    (∀ a, timed_out_timer.self.on_timeout = some a →
      (process timed_out_timer Scheduler_state.RESTART).calls =
        timed_out_timer.calls ++ [⟨Slot.on_timeout, a,
          { timed_out_timer.self with
            remaining := timed_out_timer.self.preset
            state := Scheduler_state.RUNNING }⟩])) :=
  ⟨by decide, C4_process_restart_from_timeout timed_out_timer (by decide)⟩

/-- C5: on a timer in state TIMEOUT, `process(action)` with any token other than RESTART (HOLD,
RUNNING, TIMEOUT, RESET) sets `remaining = preset` and `state = HOLD` and calls `on_timeout`
exactly once if it is set (not at all if it is null); the result is the same for all four
tokens. -/
theorem C5_process_hold_from_timeout (m : Sys) (action : Scheduler_state)
    (hs : m.self.state = Scheduler_state.TIMEOUT) (ha : action ≠ Scheduler_state.RESTART) :
    (process m action).self.remaining = m.self.preset ∧
    (process m action).self.state = Scheduler_state.HOLD ∧
    (process m action).self.preset = m.self.preset ∧
    (process m action).self.on_timeout = m.self.on_timeout ∧
    (process m action).self.on_restart = m.self.on_restart ∧
    (m.self.on_timeout = none → (process m action).calls = m.calls) ∧
    (∀ a, m.self.on_timeout = some a →
      (process m action).calls =
        m.calls ++ [⟨Slot.on_timeout, a,
          { m.self with remaining := m.self.preset, state := Scheduler_state.HOLD }⟩]) ∧
    (∀ other, other ≠ Scheduler_state.RESTART → process m other = process m action) := by
  obtain ⟨⟨p, r, st, f, g⟩, l⟩ := m
  simp only at hs
  subst hs
  have ha1 : ¬ Scheduler_state.RESTART = action := fun e => ha e.symm
  refine ⟨?_, ?_, ?_, ?_, ?_, ?_, ?_, ?_⟩
  · cases f <;> simp [process, invoke, ha1]
  · cases f <;> simp [process, invoke, ha1]
  · cases f <;> simp [process, invoke, ha1]
  · cases f <;> simp [process, invoke, ha1]
  · cases f <;> simp [process, invoke, ha1]
  · cases f <;> simp [process, invoke, ha1]
  · cases f <;> simp [process, invoke, ha1]
  · intro other ho
    have ho1 : ¬ Scheduler_state.RESTART = other := fun e => ho e.symm
    simp [process, ha1, ho1]

/-- Witness for C5 on `timed_out_timer` with the token RESET. -/
theorem C5_process_hold_from_timeout_witness :
    (timed_out_timer.self.state = Scheduler_state.TIMEOUT ∧
      Scheduler_state.RESET ≠ Scheduler_state.RESTART) ∧
    ((process timed_out_timer Scheduler_state.RESET).self.remaining
      = timed_out_timer.self.preset ∧
    (process timed_out_timer Scheduler_state.RESET).self.state = Scheduler_state.HOLD ∧
    (process timed_out_timer Scheduler_state.RESET).self.preset
      = timed_out_timer.self.preset ∧
    (process timed_out_timer Scheduler_state.RESET).self.on_timeout
      = timed_out_timer.self.on_timeout ∧
    (process timed_out_timer Scheduler_state.RESET).self.on_restart
      = timed_out_timer.self.on_restart ∧
    (timed_out_timer.self.on_timeout = none →
      (process timed_out_timer Scheduler_state.RESET).calls = timed_out_timer.calls) ∧
    (∀ a, timed_out_timer.self.on_timeout = some a →
      (process timed_out_timer Scheduler_state.RESET).calls =
        timed_out_timer.calls ++ [⟨Slot.on_timeout, a,
          { timed_out_timer.self with
            remaining := timed_out_timer.self.preset
            state := Scheduler_state.HOLD }⟩]) ∧
    (∀ other, other ≠ Scheduler_state.RESTART →
      process timed_out_timer other = process timed_out_timer Scheduler_state.RESET)) :=
  ⟨⟨by decide, by decide⟩,
    C5_process_hold_from_timeout timed_out_timer Scheduler_state.RESET (by decide) (by decide)⟩

/-- C6: on a timer whose state is not TIMEOUT, `process(action)` with any token, and `process()`,
return the object and the list of calls made exactly as they were: `preset`, `remaining`, `state`
and both callback pointers are unchanged and no callback is called. -/
theorem C6_process_noop_unless_timeout (m : Sys) (action : Scheduler_state)
    (hs : m.self.state ≠ Scheduler_state.TIMEOUT) :
    process m action = m ∧ process_default m = m ∧
    (process m action).self.preset = m.self.preset ∧
    (process m action).self.remaining = m.self.remaining ∧
    (process m action).self.state = m.self.state ∧
    (process m action).self.on_timeout = m.self.on_timeout ∧
    (process m action).self.on_restart = m.self.on_restart ∧
    (process m action).calls = m.calls := by
  have h : ∀ a, process m a = m := by
    intro a
    have h1 : ¬ Scheduler_state.TIMEOUT = m.self.state := fun e => hs e.symm
    simp [process, h1]
  refine ⟨h action, h _, ?_, ?_, ?_, ?_, ?_, ?_⟩ <;> rw [h action]

/-- Witness for C6 on `held_timer` with the token RESTART. -/
theorem C6_process_noop_unless_timeout_witness :
    held_timer.self.state ≠ Scheduler_state.TIMEOUT ∧
    (process held_timer Scheduler_state.RESTART = held_timer ∧
    process_default held_timer = held_timer ∧
    (process held_timer Scheduler_state.RESTART).self.preset = held_timer.self.preset ∧
    (process held_timer Scheduler_state.RESTART).self.remaining = held_timer.self.remaining ∧
    (process held_timer Scheduler_state.RESTART).self.state = held_timer.self.state ∧
    (process held_timer Scheduler_state.RESTART).self.on_timeout
      = held_timer.self.on_timeout ∧
    (process held_timer Scheduler_state.RESTART).self.on_restart
      = held_timer.self.on_restart ∧
    (process held_timer Scheduler_state.RESTART).calls = held_timer.calls) :=
  ⟨by decide, C6_process_noop_unless_timeout held_timer Scheduler_state.RESTART (by decide)⟩

/-- C7: on a timer whose state is HOLD or TIMEOUT, `count_down()` leaves `remaining`, `state`,
`preset` and the callbacks unchanged, calls no callback, and returns the current `remaining`. -/
theorem C7_count_down_noop_on_hold_or_timeout (w : Nat) (m : Sys)
    (hs : m.self.state = Scheduler_state.HOLD ∨ m.self.state = Scheduler_state.TIMEOUT) :
    (count_down w m).1 = m.self.remaining ∧
    (count_down w m).2 = m ∧
    (count_down w m).2.self.remaining = m.self.remaining ∧
    (count_down w m).2.self.state = m.self.state ∧
    (count_down w m).2.self.preset = m.self.preset ∧
    (count_down w m).2.self.on_timeout = m.self.on_timeout ∧
    (count_down w m).2.self.on_restart = m.self.on_restart ∧
    (count_down w m).2.calls = m.calls := by
  have hne : m.self.state ≠ Scheduler_state.RUNNING := by
    rcases hs with h | h <;> rw [h] <;> decide
  rw [count_down_not_running w m hne]
  simp

/-- Witness for C7 on `timed_out_timer` with 32-bit `unsigned long`. -/
theorem C7_count_down_noop_on_hold_or_timeout_witness :
    (timed_out_timer.self.state = Scheduler_state.HOLD ∨
      timed_out_timer.self.state = Scheduler_state.TIMEOUT) ∧
    ((count_down 32 timed_out_timer).1 = timed_out_timer.self.remaining ∧
    (count_down 32 timed_out_timer).2 = timed_out_timer ∧
    (count_down 32 timed_out_timer).2.self.remaining = timed_out_timer.self.remaining ∧
    (count_down 32 timed_out_timer).2.self.state = timed_out_timer.self.state ∧
    (count_down 32 timed_out_timer).2.self.preset = timed_out_timer.self.preset ∧
    (count_down 32 timed_out_timer).2.self.on_timeout = timed_out_timer.self.on_timeout ∧
    (count_down 32 timed_out_timer).2.self.on_restart = timed_out_timer.self.on_restart ∧
    (count_down 32 timed_out_timer).2.calls = timed_out_timer.calls) :=
  ⟨Or.inr (by decide),
    C7_count_down_noop_on_hold_or_timeout 32 timed_out_timer (Or.inr (by decide))⟩

/-! ### C8 to C10: `restart`, `reset`, `set_preset` -/

/-- C8: in any prior state, `restart()` sets `state = RUNNING`, leaves `remaining`, `preset` and
both callback pointers unchanged (after a preceding `set_preset(v)` it keeps the existing
`remaining`, not `v`), and calls `on_restart` exactly once if it is set and not at all if it is
null; no call goes through `on_timeout`. -/
theorem C8_restart_sets_running_only (m : Sys) (v : Nat) :
    (restart m).self.state = Scheduler_state.RUNNING ∧
    (restart m).self.remaining = m.self.remaining ∧
    (restart m).self.preset = m.self.preset ∧
    (restart m).self.on_timeout = m.self.on_timeout ∧
    (restart m).self.on_restart = m.self.on_restart ∧
    (restart (set_preset m v)).self.remaining = m.self.remaining ∧
    (restart (set_preset m v)).self.preset = v ∧
    (m.self.on_restart = none → (restart m).calls = m.calls) ∧
    (∀ a, m.self.on_restart = some a →
      (restart m).calls =
        m.calls ++ [⟨Slot.on_restart, a, { m.self with state := Scheduler_state.RUNNING }⟩]) ∧
    (∀ c ∈ (restart m).calls.drop m.calls.length, c.slot ≠ Slot.on_timeout) := by
  obtain ⟨⟨p, r, st, f, g⟩, l⟩ := m
  cases g <;> simp [restart, set_preset, invoke]

/-- C9: in any state, `reset()` sets `remaining = preset` and `state = HOLD`, leaves `preset` and
both callback pointers unchanged, and calls no callback. -/
theorem C9_reset_reloads_and_holds (m : Sys) :
    (reset m).self.remaining = m.self.preset ∧
    (reset m).self.state = Scheduler_state.HOLD ∧
    (reset m).self.preset = m.self.preset ∧
    (reset m).self.on_timeout = m.self.on_timeout ∧
    (reset m).self.on_restart = m.self.on_restart ∧
    (reset m).calls = m.calls := by
  simp [reset]

/-- C10: for every timer and value `v`, after `set_preset(v)` `get_preset()` returns `v` and
nothing else has changed: `remaining`, `state` and both callback pointers are as before and no
callback is called. -/
theorem C10_set_preset_only_preset (m : Sys) (v : Nat) :
    get_preset (set_preset m v) = v ∧
    get_remaining (set_preset m v) = get_remaining m ∧
    get_state (set_preset m v) = get_state m ∧
    (set_preset m v).self.remaining = m.self.remaining ∧
    (set_preset m v).self.state = m.self.state ∧
    (set_preset m v).self.on_timeout = m.self.on_timeout ∧
    (set_preset m v).self.on_restart = m.self.on_restart ∧
    (set_preset m v).calls = m.calls := by
  simp [set_preset, get_preset, get_remaining, get_state]

/-! ### C11 to C13: zero preset, the free-running cycle, construction -/

/-- A RUNNING timer with `1 ≤ remaining < 2 ^ w` after `k ≤ remaining` calls of `count_down`:
only `remaining` and `state` have changed, and no call has been made. -/
theorem count_downs_running (w : Nat) (m : Sys) (hs : m.self.state = Scheduler_state.RUNNING)
    (h1 : 1 ≤ m.self.remaining) (h2 : m.self.remaining < 2 ^ w) (k : Nat)
    (hk : k ≤ m.self.remaining) :
    count_downs w k m =
      { m with self :=
          { m.self with
            remaining := m.self.remaining - k
            state := if k = m.self.remaining then Scheduler_state.TIMEOUT
                     else Scheduler_state.RUNNING } } := by
  induction k with
  | zero =>
    obtain ⟨⟨p0, r, st, f, g⟩, l⟩ := m
    simp only at hs h1
    subst hs
    have hne : ¬ (0 = r) := by omega
    simp [count_downs, hne]
  | succ k ih =>
    have ih1 := ih (by omega)
    have hne : ¬ (k = m.self.remaining) := by omega
    simp only [hne, if_false] at ih1
    show (count_down w (count_downs w k m)).2 = _
    rw [ih1, count_down_running w _ rfl]
    simp only
    rw [pre_decrement_pos w (m.self.remaining - k) (by omega) (by omega)]
    have e1 : m.self.remaining - k - 1 = m.self.remaining - (k + 1) := by omega
    by_cases hkp : k + 1 = m.self.remaining
    · have e2 : m.self.remaining - (k + 1) = 0 := by omega
      simp [e1, e2, hkp]
    · have e2 : ¬ (m.self.remaining - (k + 1) = 0) := by omega
      simp [e1, e2, hkp]

/-- C11: with 32-bit `unsigned long`, a timer built with preset 0, and the placeholder timer,
after `reset()` and `restart()` is RUNNING with `remaining = 0`, and the first `count_down()`
returns `2 ^ 32 - 1` and leaves the timer RUNNING, not in TIMEOUT. -/
theorem C11_zero_preset_does_not_time_out :
    (restart (reset (Scheduler_ctor 0 (some 1) none))).self.state = Scheduler_state.RUNNING ∧
    (restart (reset (Scheduler_ctor 0 (some 1) none))).self.remaining = 0 ∧
    (count_down 32 (restart (reset (Scheduler_ctor 0 (some 1) none)))).1 = 4294967295 ∧
    (count_down 32 (restart (reset (Scheduler_ctor 0 (some 1) none)))).2.self.state
      = Scheduler_state.RUNNING ∧
    (count_down 32 (restart (reset (Scheduler_ctor 0 (some 1) none)))).2.self.state
      ≠ Scheduler_state.TIMEOUT ∧
    (count_down 32 (restart (reset Scheduler_ctor0))).1 = 4294967295 ∧
    (count_down 32 (restart (reset Scheduler_ctor0))).2.self.state
      ≠ Scheduler_state.TIMEOUT := by
  decide

/-- The timer built by the full constructor and restarted is RUNNING with `remaining = p`. -/
theorem restart_ctor_self (p : Nat) (f g : FnPtr) :
    (restart (Scheduler_ctor p f g)).self =
      { preset := p, remaining := p, state := Scheduler_state.RUNNING,
        on_timeout := f, on_restart := g } := by
  cases g <;> simp [restart, Scheduler_ctor, invoke]

/-- C12: for every preset `p` with `1 ≤ p < 2 ^ w`, a timer built by the full constructor with
preset `p` and then restarted stays RUNNING for fewer than `p` calls of `count_down()` and after
exactly `p` calls is in TIMEOUT with `remaining = 0`; `process()` then puts it in RUNNING with
`remaining = p` and calls `on_timeout` exactly once (if it is set), with the updated object; the
timer again stays RUNNING for fewer than `p` further calls of `count_down()` and is in TIMEOUT
with `remaining = 0` after exactly `p`, and these calls call no callback. -/
theorem C12_free_running_cycle (w p : Nat) (f g : FnPtr) (hp1 : 1 ≤ p) (hpw : p < 2 ^ w) :
    (∀ k, k < p →
      (count_downs w k (restart (Scheduler_ctor p f g))).self.state
        = Scheduler_state.RUNNING) ∧
    (count_downs w p (restart (Scheduler_ctor p f g))).self.state
      = Scheduler_state.TIMEOUT ∧
    (count_downs w p (restart (Scheduler_ctor p f g))).self.remaining = 0 ∧
    (process_default (count_downs w p (restart (Scheduler_ctor p f g)))).self.state
      = Scheduler_state.RUNNING ∧
    (process_default (count_downs w p (restart (Scheduler_ctor p f g)))).self.remaining
      = p ∧
    (f = none →
      (process_default (count_downs w p (restart (Scheduler_ctor p f g)))).calls
        = (count_downs w p (restart (Scheduler_ctor p f g))).calls) ∧
    (∀ a, f = some a →
      (process_default (count_downs w p (restart (Scheduler_ctor p f g)))).calls
        = (count_downs w p (restart (Scheduler_ctor p f g))).calls ++
          [⟨Slot.on_timeout, a,
            { preset := p, remaining := p, state := Scheduler_state.RUNNING,
              on_timeout := f, on_restart := g }⟩]) ∧
    (∀ k, k < p →
      (count_downs w k
        (process_default (count_downs w p (restart (Scheduler_ctor p f g))))).self.state
        = Scheduler_state.RUNNING) ∧
    (count_downs w p
      (process_default (count_downs w p (restart (Scheduler_ctor p f g))))).self.state
      = Scheduler_state.TIMEOUT ∧
    (count_downs w p
      (process_default (count_downs w p (restart (Scheduler_ctor p f g))))).self.remaining
      = 0 ∧
    (count_downs w p
      (process_default (count_downs w p (restart (Scheduler_ctor p f g))))).calls
      = (process_default (count_downs w p (restart (Scheduler_ctor p f g)))).calls := by
  have hself := restart_ctor_self p f g
  have hs0 : (restart (Scheduler_ctor p f g)).self.state = Scheduler_state.RUNNING := by
    rw [hself]
  have hr0 : (restart (Scheduler_ctor p f g)).self.remaining = p := by rw [hself]
  have first : ∀ k, k ≤ p → count_downs w k (restart (Scheduler_ctor p f g)) =
      { restart (Scheduler_ctor p f g) with self :=
          { preset := p, remaining := p - k,
            state := if k = p then Scheduler_state.TIMEOUT else Scheduler_state.RUNNING,
            on_timeout := f, on_restart := g } } := by
    intro k hk
    rw [count_downs_running w _ hs0 (by omega) (by omega) k (by omega), hr0, hself]
  have hproc : process_default (count_downs w p (restart (Scheduler_ctor p f g))) =
      invoke Slot.on_timeout f
        { restart (Scheduler_ctor p f g) with self :=
          { preset := p, remaining := p, state := Scheduler_state.RUNNING,
            on_timeout := f, on_restart := g } } := by
    rw [first p (le_refl p)]
    simp [process_default, process]
  have hps : (process_default (count_downs w p (restart (Scheduler_ctor p f g)))).self =
      { preset := p, remaining := p, state := Scheduler_state.RUNNING,
        on_timeout := f, on_restart := g } := by
    rw [hproc]; cases f <;> simp [invoke]
  have hs2 : (process_default (count_downs w p (restart (Scheduler_ctor p f g)))).self.state
      = Scheduler_state.RUNNING := by rw [hps]
  have hr2 : (process_default (count_downs w p (restart (Scheduler_ctor p f g)))).self.remaining
      = p := by rw [hps]
  have second : ∀ k, k ≤ p →
      count_downs w k (process_default (count_downs w p (restart (Scheduler_ctor p f g)))) =
      { process_default (count_downs w p (restart (Scheduler_ctor p f g))) with self :=
          { preset := p, remaining := p - k,
            state := if k = p then Scheduler_state.TIMEOUT else Scheduler_state.RUNNING,
            on_timeout := f, on_restart := g } } := by
    intro k hk
    rw [count_downs_running w _ hs2 (by omega) (by omega) k (by omega), hr2, hps]
  refine ⟨?_, ?_, ?_, hs2, hr2, ?_, ?_, ?_, ?_, ?_, ?_⟩
  · intro k hk
    have hne : ¬ (k = p) := by omega
    rw [first k (by omega)]; simp [hne]
  · rw [first p (le_refl p)]; simp
  · rw [first p (le_refl p)]; simp
  · intro hf
    rw [hproc, first p (le_refl p), hf]; simp [invoke]
  · intro a hf
    rw [hproc, first p (le_refl p), hf]; simp [invoke]
  · intro k hk
    have hne : ¬ (k = p) := by omega
    rw [second k (by omega)]; simp [hne]
  · rw [second p (le_refl p)]; simp
  · rw [second p (le_refl p)]; simp
  · rw [second p (le_refl p)]

/-- Witness for C12 at `w = 32`, `p = 3`, with a timeout callback and no restart callback. -/
theorem C12_free_running_cycle_witness :
    (1 ≤ 3 ∧ 3 < 2 ^ 32) ∧
    ((∀ k, k < 3 →
      (count_downs 32 k (restart (Scheduler_ctor 3 (some 1) none))).self.state
        = Scheduler_state.RUNNING) ∧
    (count_downs 32 3 (restart (Scheduler_ctor 3 (some 1) none))).self.state
      = Scheduler_state.TIMEOUT ∧
    (count_downs 32 3 (restart (Scheduler_ctor 3 (some 1) none))).self.remaining = 0 ∧
    (process_default (count_downs 32 3 (restart (Scheduler_ctor 3 (some 1) none)))).self.state
      = Scheduler_state.RUNNING ∧
    (process_default (count_downs 32 3 (restart (Scheduler_ctor 3 (some 1) none)))).self.remaining
      = 3 ∧
    ((some 1) = none →
      (process_default (count_downs 32 3 (restart (Scheduler_ctor 3 (some 1) none)))).calls
        = (count_downs 32 3 (restart (Scheduler_ctor 3 (some 1) none))).calls) ∧
    (∀ a, (some 1) = some a →
      (process_default (count_downs 32 3 (restart (Scheduler_ctor 3 (some 1) none)))).calls
        = (count_downs 32 3 (restart (Scheduler_ctor 3 (some 1) none))).calls ++
          [⟨Slot.on_timeout, a,
            { preset := 3, remaining := 3, state := Scheduler_state.RUNNING,
              on_timeout := (some 1), on_restart := none }⟩]) ∧
    (∀ k, k < 3 →
      (count_downs 32 k
        (process_default (count_downs 32 3 (restart (Scheduler_ctor 3 (some 1) none))))).self.state
        = Scheduler_state.RUNNING) ∧
    (count_downs 32 3
      (process_default (count_downs 32 3 (restart (Scheduler_ctor 3 (some 1) none))))).self.state
      = Scheduler_state.TIMEOUT ∧
    (count_downs 32 3
      (process_default (count_downs 32 3 (restart (Scheduler_ctor 3 (some 1) none))))).self.remaining
      = 0 ∧
    (count_downs 32 3
      (process_default (count_downs 32 3 (restart (Scheduler_ctor 3 (some 1) none))))).calls
      = (process_default (count_downs 32 3 (restart (Scheduler_ctor 3 (some 1) none)))).calls) :=
  ⟨⟨by decide, by decide⟩, C12_free_running_cycle 32 3 (some 1) none (by decide) (by decide)⟩

/-- C13: the full constructor yields `preset = p`, `remaining = p`, `state = HOLD`,
`on_timeout = f`, `on_restart = g` for every `p`, `f` and `g` (`g` null when the third argument
is left out); the placeholder constructor yields `preset = 0`, `remaining = 0`, `state = HOLD`
and both callbacks null.  Neither constructor calls a callback. -/
theorem C13_constructors (p : Nat) (f g : FnPtr) :
    (Scheduler_ctor p f g).self.preset = p ∧
    (Scheduler_ctor p f g).self.remaining = p ∧
    (Scheduler_ctor p f g).self.state = Scheduler_state.HOLD ∧
    (Scheduler_ctor p f g).self.on_timeout = f ∧
    (Scheduler_ctor p f g).self.on_restart = g ∧
    (Scheduler_ctor p f g).calls = [] ∧
    (Scheduler_ctor p f none).self.on_restart = none ∧
    get_preset (Scheduler_ctor p f g) = p ∧
    get_remaining (Scheduler_ctor p f g) = p ∧
    get_state (Scheduler_ctor p f g) = Scheduler_state.HOLD ∧
    Scheduler_ctor0.self.preset = 0 ∧
    Scheduler_ctor0.self.remaining = 0 ∧
    Scheduler_ctor0.self.state = Scheduler_state.HOLD ∧
    Scheduler_ctor0.self.on_timeout = none ∧
    Scheduler_ctor0.self.on_restart = none ∧
    Scheduler_ctor0.calls = [] := by
  simp [Scheduler_ctor, Scheduler_ctor0, get_preset, get_remaining, get_state]

/-! ### C14 and C15: which call goes through which pointer -/

/-- What one public call adds to the list of calls: nothing, except that `restart` adds one call
through `on_restart` if that pointer is set, and `process` on a timer in TIMEOUT adds one call
through `on_timeout` if that pointer is set. -/
theorem calls_during_eq (w : Nat) (m : Sys) (op : Op) :
    calls_during w m op =
      match op with
      | Op.restart =>
        match m.self.on_restart with
        | none => []
        | some a => [⟨Slot.on_restart, a, (restart m).self⟩]
      | Op.process action =>
        if m.self.state = Scheduler_state.TIMEOUT then
          match m.self.on_timeout with
          | none => []
          | some a => [⟨Slot.on_timeout, a, (process m action).self⟩]
        else []
      | _ => [] := by
  obtain ⟨⟨p, r, st, f, g⟩, l⟩ := m
  cases op with
  | set_preset pre => simp [calls_during, step, set_preset]
  | set_on_timeout f1 => simp [calls_during, step, set_on_timeout]
  | set_on_restart f1 => simp [calls_during, step, set_on_restart]
  | reset => simp [calls_during, step, reset]
  | restart => cases g <;> simp [calls_during, step, restart, invoke]
  | hold => simp [calls_during, step, hold]
  | count_down =>
    by_cases hs : st = Scheduler_state.RUNNING
    · simp only [calls_during, step]
      rw [count_down_running w _ hs]
      simp
    · simp only [calls_during, step]
      rw [count_down_not_running w _ hs]
      simp
  | process action =>
    by_cases hs : st = Scheduler_state.TIMEOUT
    · subst hs
      by_cases ha : Scheduler_state.RESTART = action <;>
        cases f <;> simp [calls_during, step, process, invoke, ha]
    · have hs1 : ¬ Scheduler_state.TIMEOUT = st := fun e => hs e.symm
      simp [calls_during, step, process, hs, hs1]

/-- A public call only adds to the list of calls. -/
theorem step_calls_append (w : Nat) (m : Sys) (op : Op) :
    (step w m op).calls = m.calls ++ calls_during w m op := by
  obtain ⟨⟨p, r, st, f, g⟩, l⟩ := m
  cases op with
  | set_preset pre => simp [calls_during, step, set_preset]
  | set_on_timeout f1 => simp [calls_during, step, set_on_timeout]
  | set_on_restart f1 => simp [calls_during, step, set_on_restart]
  | reset => simp [calls_during, step, reset]
  | restart => cases g <;> simp [calls_during, step, restart, invoke]
  | hold => simp [calls_during, step, hold]
  | count_down =>
    by_cases hs : st = Scheduler_state.RUNNING
    · simp only [calls_during, step]
      rw [count_down_running w _ hs]
      simp
    · simp only [calls_during, step]
      rw [count_down_not_running w _ hs]
      simp
  | process action =>
    by_cases hs : Scheduler_state.TIMEOUT = st
    · subst hs
      by_cases ha : Scheduler_state.RESTART = action <;>
        cases f <;> simp [calls_during, step, process, invoke, ha]
    · simp [calls_during, step, process, hs]

/-- C14 as stated fails: on `timed_out_timer`, whose `on_restart` is set, `process(RESTART)`
takes the stored state from TIMEOUT to RUNNING and makes no call through `on_restart`. -/
theorem C14_process_restart_skips_on_restart :
    timed_out_timer.self.on_restart = some 9 ∧
    timed_out_timer.self.state = Scheduler_state.TIMEOUT ∧
    (step 32 timed_out_timer (Op.process Scheduler_state.RESTART)).self.state
      = Scheduler_state.RUNNING ∧
    ¬ (count_slot Slot.on_restart
        (calls_during 32 timed_out_timer (Op.process Scheduler_state.RESTART)) = 1) := by
  decide

/-- C14, amended: `on_restart` is called by `restart()` and by nothing else.  Every public call
only adds to the list of calls; the number of calls it makes through `on_restart` is 1 if the
call is `restart()` and the pointer is set, and 0 otherwise; `restart()` sets the state to
RUNNING; `process(RESTART)` on a timer in TIMEOUT sets the state to RUNNING and makes no call
through `on_restart`. -/
theorem C14_on_restart_only_by_restart (w : Nat) (m : Sys) (op : Op) :
    (step w m op).calls = m.calls ++ calls_during w m op ∧
    count_slot Slot.on_restart (calls_during w m op) =
      (if op = Op.restart ∧ m.self.on_restart ≠ none then 1 else 0) ∧
    (step w m Op.restart).self.state = Scheduler_state.RUNNING ∧
    (m.self.state = Scheduler_state.TIMEOUT →
      (step w m (Op.process Scheduler_state.RESTART)).self.state = Scheduler_state.RUNNING ∧
      count_slot Slot.on_restart
        (calls_during w m (Op.process Scheduler_state.RESTART)) = 0) := by
  refine ⟨step_calls_append w m op, ?_, ?_, ?_⟩
  · rw [calls_during_eq]
    cases op with
    | restart => cases h : m.self.on_restart <;> simp [count_slot]
    | process action =>
      by_cases hs : m.self.state = Scheduler_state.TIMEOUT <;>
        cases h : m.self.on_timeout <;> simp [count_slot, hs]
    | _ => simp [count_slot]
  · obtain ⟨⟨p, r, st, f, g⟩, l⟩ := m
    cases g <;> simp [step, restart, invoke]
  · intro hs
    refine ⟨?_, ?_⟩
    · obtain ⟨⟨p, r, st, f, g⟩, l⟩ := m
      simp only at hs
      subst hs
      cases f <;> simp [step, process, invoke]
    · rw [calls_during_eq]
      cases h : m.self.on_timeout <;> simp [count_slot, hs]

/-- C15: `on_timeout` is called only by `process()`, and only when the state at entry is
TIMEOUT.  The number of calls `process(action)` makes through `on_timeout` is 1 if the state at
entry is TIMEOUT and the pointer is set, and 0 otherwise; `count_down()` (also the call that
moves the timer into TIMEOUT), `reset()`, `hold()`, `restart()`, `set_preset()` and the two
callback setters make none, in any state. -/
theorem C15_on_timeout_only_by_process (w : Nat) (m : Sys) (v : Nat) (f : FnPtr)
    (action : Scheduler_state) :
    count_slot Slot.on_timeout (calls_during w m (Op.process action)) =
      (if m.self.state = Scheduler_state.TIMEOUT ∧ m.self.on_timeout ≠ none then 1 else 0) ∧
    count_slot Slot.on_timeout (calls_during w m Op.count_down) = 0 ∧
    count_slot Slot.on_timeout (calls_during w m Op.reset) = 0 ∧
    count_slot Slot.on_timeout (calls_during w m Op.hold) = 0 ∧
    count_slot Slot.on_timeout (calls_during w m Op.restart) = 0 ∧
    count_slot Slot.on_timeout (calls_during w m (Op.set_preset v)) = 0 ∧
    count_slot Slot.on_timeout (calls_during w m (Op.set_on_timeout f)) = 0 ∧
    count_slot Slot.on_timeout (calls_during w m (Op.set_on_restart f)) = 0 ∧
    (∀ op, (step w m op).calls = m.calls ++ calls_during w m op) ∧
    (∀ op, 0 < count_slot Slot.on_timeout (calls_during w m op) →
      (∃ a, op = Op.process a) ∧ m.self.state = Scheduler_state.TIMEOUT) := by
  refine ⟨?_, ?_, ?_, ?_, ?_, ?_, ?_, ?_, step_calls_append w m, ?_⟩
  · rw [calls_during_eq]
    by_cases hs : m.self.state = Scheduler_state.TIMEOUT <;>
      cases h : m.self.on_timeout <;> simp [count_slot, hs]
  · rw [calls_during_eq]; simp [count_slot]
  · rw [calls_during_eq]; simp [count_slot]
  · rw [calls_during_eq]; simp [count_slot]
  · rw [calls_during_eq]; cases h : m.self.on_restart <;> simp [count_slot]
  · rw [calls_during_eq]; simp [count_slot]
  · rw [calls_during_eq]; simp [count_slot]
  · rw [calls_during_eq]; simp [count_slot]
  · intro op hpos
    rw [calls_during_eq] at hpos
    cases op with
    | restart => cases h : m.self.on_restart <;> simp [count_slot, h] at hpos
    | process action =>
      by_cases hs : m.self.state = Scheduler_state.TIMEOUT
      · exact ⟨⟨action, rfl⟩, hs⟩
      · simp [count_slot, hs] at hpos
    | _ => simp [count_slot] at hpos

/-! ### C16 and C17: invariants of the stored state -/

/-- A property that holds of the starting object and is kept by every public call holds after
each call of any sequence. -/
theorem states_invariant (w : Nat) (I : Sys → Prop)
    (hstep : ∀ m op, I m → I (step w m op)) (ops : List Op) :
    ∀ m : Sys, I m → ∀ t ∈ states w m ops, I t := by
  induction ops with
  | nil => intro m _ t ht; simp [states] at ht
  | cons op ops ih =>
    intro m hm t ht
    simp only [states, List.mem_cons] at ht
    rcases ht with ht | ht
    · rw [ht]; exact hstep m op hm
    · exact ih (step w m op) (hstep m op hm) t ht

theorem step_keeps_timeout_at_zero (w : Nat) (m : Sys) (op : Op)
    (hinv : m.self.state = Scheduler_state.TIMEOUT → m.self.remaining = 0) :
    (step w m op).self.state = Scheduler_state.TIMEOUT → (step w m op).self.remaining = 0 := by
  obtain ⟨⟨p, r, st, f, g⟩, l⟩ := m
  simp only at hinv
  cases op with
  | set_preset pre => simpa [step, set_preset] using hinv
  | set_on_timeout f1 => simpa [step, set_on_timeout] using hinv
  | set_on_restart f1 => simpa [step, set_on_restart] using hinv
  | reset => simp [step, reset]
  | restart => cases g <;> simp [step, restart, invoke]
  | hold => simp [step, hold]
  | count_down =>
    by_cases hs : st = Scheduler_state.RUNNING
    · simp only [step]
      rw [count_down_running w _ hs]
      by_cases h0 : pre_decrement w r = 0 <;> simp [h0]
    · simp only [step]
      rw [count_down_not_running w _ hs]
      exact hinv
  | process action =>
    by_cases hs : Scheduler_state.TIMEOUT = st
    · subst hs
      by_cases ha : Scheduler_state.RESTART = action <;>
        cases f <;> simp [step, process, invoke, ha]
    · simpa [step, process, hs] using hinv

theorem step_keeps_state_stored (w : Nat) (m : Sys) (op : Op)
    (hinv : m.self.state = Scheduler_state.HOLD ∨ m.self.state = Scheduler_state.RUNNING ∨
      m.self.state = Scheduler_state.TIMEOUT) :
    (step w m op).self.state = Scheduler_state.HOLD ∨
    (step w m op).self.state = Scheduler_state.RUNNING ∨
    (step w m op).self.state = Scheduler_state.TIMEOUT := by
  obtain ⟨⟨p, r, st, f, g⟩, l⟩ := m
  simp only at hinv
  cases op with
  | set_preset pre => simpa [step, set_preset] using hinv
  | set_on_timeout f1 => simpa [step, set_on_timeout] using hinv
  | set_on_restart f1 => simpa [step, set_on_restart] using hinv
  | reset => simp [step, reset]
  | restart => cases g <;> simp [step, restart, invoke]
  | hold => simp [step, hold]
  | count_down =>
    by_cases hs : st = Scheduler_state.RUNNING
    · simp only [step]
      rw [count_down_running w _ hs]
      by_cases h0 : pre_decrement w r = 0 <;> simp [h0]
    · simp only [step]
      rw [count_down_not_running w _ hs]
      exact hinv
  | process action =>
    by_cases hs : Scheduler_state.TIMEOUT = st
    · subst hs
      by_cases ha : Scheduler_state.RESTART = action <;>
        cases f <;> simp [step, process, invoke, ha]
    · simpa [step, process, hs] using hinv

/-- C16: in the object a constructor yields and in every state reached from it by a finite
sequence of public calls, `state = TIMEOUT` implies `remaining = 0`. -/
theorem C16_timeout_implies_remaining_zero (w : Nat) (m0 : Sys) (ops : List Op)
    (hinit : (∃ p f g, m0 = Scheduler_ctor p f g) ∨ m0 = Scheduler_ctor0) :
    (m0.self.state = Scheduler_state.TIMEOUT → m0.self.remaining = 0) ∧
    (∀ t ∈ states w m0 ops,
      t.self.state = Scheduler_state.TIMEOUT → t.self.remaining = 0) := by
  have h0 : m0.self.state = Scheduler_state.TIMEOUT → m0.self.remaining = 0 := by
    rcases hinit with ⟨p, f, g, rfl⟩ | rfl
    · intro h; simp [Scheduler_ctor] at h
    · intro h; simp [Scheduler_ctor0] at h
  exact ⟨h0, states_invariant w
    (fun m => m.self.state = Scheduler_state.TIMEOUT → m.self.remaining = 0)
    (step_keeps_timeout_at_zero w) ops m0 h0⟩

/-- Witness for C16: a timer with preset 2 times out, is given preset 7 and restarted while in
TIMEOUT, counts down past zero, and is reset and restarted. -/
theorem C16_timeout_implies_remaining_zero_witness :
    ((∃ p f g, Scheduler_ctor 2 (some 1) none = Scheduler_ctor p f g) ∨
      Scheduler_ctor 2 (some 1) none = Scheduler_ctor0) ∧
    ((Scheduler_ctor 2 (some 1) none).self.state = Scheduler_state.TIMEOUT →
      (Scheduler_ctor 2 (some 1) none).self.remaining = 0) ∧
    (∀ t ∈ states 32 (Scheduler_ctor 2 (some 1) none)
      [Op.restart, Op.count_down, Op.count_down, Op.set_preset 7, Op.restart,
        Op.count_down, Op.process Scheduler_state.HOLD, Op.reset, Op.restart],
      t.self.state = Scheduler_state.TIMEOUT → t.self.remaining = 0) :=
  ⟨Or.inl ⟨2, some 1, none, rfl⟩,
    C16_timeout_implies_remaining_zero 32 (Scheduler_ctor 2 (some 1) none)
      [Op.restart, Op.count_down, Op.count_down, Op.set_preset 7, Op.restart,
        Op.count_down, Op.process Scheduler_state.HOLD, Op.reset, Op.restart]
      (Or.inl ⟨2, some 1, none, rfl⟩)⟩

/-- C17: in the object a constructor yields and in every state reached from it by a finite
sequence of public calls, `process(action)` with any of the five tokens included, the stored
state is one of HOLD, RUNNING, TIMEOUT, and `get_state()` returns neither RESTART nor RESET. -/
theorem C17_stored_state_is_hold_running_timeout (w : Nat) (m0 : Sys) (ops : List Op)
    (hinit : (∃ p f g, m0 = Scheduler_ctor p f g) ∨ m0 = Scheduler_ctor0) :
    get_state m0 = Scheduler_state.HOLD ∧
    (∀ t ∈ states w m0 ops,
      (get_state t = Scheduler_state.HOLD ∨ get_state t = Scheduler_state.RUNNING ∨
        get_state t = Scheduler_state.TIMEOUT) ∧
      get_state t ≠ Scheduler_state.RESTART ∧ get_state t ≠ Scheduler_state.RESET) := by
  have h0 : m0.self.state = Scheduler_state.HOLD := by
    rcases hinit with ⟨p, f, g, rfl⟩ | rfl
    · rfl
    · rfl
  refine ⟨h0, ?_⟩
  intro t ht
  have h3 := states_invariant w
    (fun m => m.self.state = Scheduler_state.HOLD ∨ m.self.state = Scheduler_state.RUNNING ∨
      m.self.state = Scheduler_state.TIMEOUT)
    (step_keeps_state_stored w) ops m0 (Or.inl h0) t ht
  refine ⟨h3, ?_, ?_⟩
  · intro h
    have h : t.self.state = Scheduler_state.RESTART := h
    rcases h3 with h1 | h1 | h1 <;> rw [h1] at h <;> exact absurd h (by decide)
  · intro h
    have h : t.self.state = Scheduler_state.RESET := h
    rcases h3 with h1 | h1 | h1 <;> rw [h1] at h <;> exact absurd h (by decide)

/-- Witness for C17: the placeholder timer is restarted, counted down, processed with RESET and
with RESTART, held and reset. -/
theorem C17_stored_state_is_hold_running_timeout_witness :
    ((∃ p f g, Scheduler_ctor0 = Scheduler_ctor p f g) ∨ Scheduler_ctor0 = Scheduler_ctor0) ∧
    get_state Scheduler_ctor0 = Scheduler_state.HOLD ∧
    (∀ t ∈ states 32 Scheduler_ctor0
      [Op.restart, Op.count_down, Op.count_down, Op.process Scheduler_state.RESET,
        Op.restart, Op.hold, Op.process Scheduler_state.RESTART, Op.reset],
      (get_state t = Scheduler_state.HOLD ∨ get_state t = Scheduler_state.RUNNING ∨
        get_state t = Scheduler_state.TIMEOUT) ∧
      get_state t ≠ Scheduler_state.RESTART ∧ get_state t ≠ Scheduler_state.RESET) :=
  ⟨Or.inr rfl,
    C17_stored_state_is_hold_running_timeout 32 Scheduler_ctor0
      [Op.restart, Op.count_down, Op.count_down, Op.process Scheduler_state.RESET,
        Op.restart, Op.hold, Op.process Scheduler_state.RESTART, Op.reset]
      (Or.inr rfl)⟩

/-! ### C18 and C19: a held timer, and `process` called twice -/

/-- The method `restart` sets `state = RUNNING` and keeps `remaining`. -/
theorem restart_state_remaining (m : Sys) :
    (restart m).self.state = Scheduler_state.RUNNING ∧
    (restart m).self.remaining = m.self.remaining := by
  obtain ⟨⟨p, r, st, f, g⟩, l⟩ := m
  cases g <;> simp [restart, invoke]

theorem step_on_hold (w : Nat) (m : Sys) (op : Op)
    (hs : m.self.state = Scheduler_state.HOLD)
    (hop : op = Op.count_down ∨ ∃ a, op = Op.process a) :
    step w m op = m := by
  rcases hop with rfl | ⟨a, rfl⟩
  · simp only [step]
    rw [count_down_not_running w m (by rw [hs]; decide)]
  · have h1 : ¬ Scheduler_state.TIMEOUT = m.self.state := by rw [hs]; decide
    simp [step, process, h1]

theorem states_on_hold (w : Nat) (ops : List Op) (m : Sys)
    (hs : m.self.state = Scheduler_state.HOLD)
    (hops : ∀ op ∈ ops, op = Op.count_down ∨ ∃ a, op = Op.process a) :
    (∀ t ∈ states w m ops, t = m) ∧ run w m ops = m := by
  induction ops with
  | nil => simp [states, run]
  | cons op ops ih =>
    have h1 := step_on_hold w m op hs (hops op (List.mem_cons_self _ _))
    have h2 := ih (fun o ho => hops o (List.mem_cons_of_mem _ ho))
    refine ⟨?_, ?_⟩
    · intro t ht
      simp only [states, List.mem_cons, h1] at ht
      rcases ht with ht | ht
      · exact ht
      · exact h2.1 t ht
    · simp only [run, h1]
      exact h2.2

/-- C18: `hold()` sets `state = HOLD`, changes no other field and calls no callback; after it,
every sequence of `count_down()` and `process(action)` calls leaves the object as `hold()` left
it after each call (so `preset`, `remaining` and `state` are unchanged, TIMEOUT is never reached
and no callback is called), and a `restart()` after the sequence gives a RUNNING timer with the
`remaining` the timer had when `hold()` was called. -/
theorem C18_held_timer_is_frozen (w : Nat) (m : Sys) (ops : List Op)
    (hops : ∀ op ∈ ops, op = Op.count_down ∨ ∃ a, op = Op.process a) :
    (hold m).self.state = Scheduler_state.HOLD ∧
    (hold m).self.preset = m.self.preset ∧
    (hold m).self.remaining = m.self.remaining ∧
    (hold m).self.on_timeout = m.self.on_timeout ∧
    (hold m).self.on_restart = m.self.on_restart ∧
    (hold m).calls = m.calls ∧
    (∀ t ∈ states w (hold m) ops,
      t = hold m ∧ t.self.state ≠ Scheduler_state.TIMEOUT ∧ t.calls = m.calls) ∧
    run w (hold m) ops = hold m ∧
    (restart (run w (hold m) ops)).self.state = Scheduler_state.RUNNING ∧
    (restart (run w (hold m) ops)).self.remaining = m.self.remaining := by
  have hh : (hold m).self.state = Scheduler_state.HOLD := rfl
  have hst := states_on_hold w ops (hold m) hh hops
  refine ⟨rfl, rfl, rfl, rfl, rfl, rfl, ?_, hst.2, ?_, ?_⟩
  · intro t ht
    have e := hst.1 t ht
    subst e
    exact ⟨rfl, by rw [hh]; decide, rfl⟩
  · rw [hst.2]
    exact (restart_state_remaining (hold m)).1
  · rw [hst.2]
    exact (restart_state_remaining (hold m)).2

/-- Witness for C18 on `running_timer` with two ticks and two passes of the main loop. -/
theorem C18_held_timer_is_frozen_witness :
    (∀ op ∈ [Op.count_down, Op.process Scheduler_state.RESTART, Op.count_down,
        Op.process Scheduler_state.HOLD],
      op = Op.count_down ∨ ∃ a, op = Op.process a) ∧
    ((hold running_timer).self.state = Scheduler_state.HOLD ∧
    (hold running_timer).self.preset = running_timer.self.preset ∧
    (hold running_timer).self.remaining = running_timer.self.remaining ∧
    (hold running_timer).self.on_timeout = running_timer.self.on_timeout ∧
    (hold running_timer).self.on_restart = running_timer.self.on_restart ∧
    (hold running_timer).calls = running_timer.calls ∧
    (∀ t ∈ states 32 (hold running_timer)
      [Op.count_down, Op.process Scheduler_state.RESTART, Op.count_down,
        Op.process Scheduler_state.HOLD],
      t = hold running_timer ∧ t.self.state ≠ Scheduler_state.TIMEOUT ∧ t.calls = running_timer.calls) ∧
    run 32 (hold running_timer)
      [Op.count_down, Op.process Scheduler_state.RESTART, Op.count_down,
        Op.process Scheduler_state.HOLD] = hold running_timer ∧
    (restart (run 32 (hold running_timer)
      [Op.count_down, Op.process Scheduler_state.RESTART, Op.count_down,
        Op.process Scheduler_state.HOLD])).self.state = Scheduler_state.RUNNING ∧
    (restart (run 32 (hold running_timer)
      [Op.count_down, Op.process Scheduler_state.RESTART, Op.count_down,
        Op.process Scheduler_state.HOLD])).self.remaining = running_timer.self.remaining) :=
  ⟨by simp,
    C18_held_timer_is_frozen 32 running_timer
      [Op.count_down, Op.process Scheduler_state.RESTART, Op.count_down,
        Op.process Scheduler_state.HOLD]
      (by simp)⟩

/-- C19: for every timer and all tokens `a`, `b`, `process(a)` followed at once by `process(b)`
leaves the object as `process(a)` alone leaves it, the two calls only add to the list of calls,
and together they make at most one call through `on_timeout`. -/
theorem C19_process_twice (m : Sys) (a b : Scheduler_state) :
    process (process m a) b = process m a ∧
    (process (process m a) b).self = (process m a).self ∧
    (process (process m a) b).calls
      = m.calls ++ (process (process m a) b).calls.drop m.calls.length ∧
    count_slot Slot.on_timeout ((process (process m a) b).calls.drop m.calls.length) ≤ 1 := by
  have h : process (process m a) b = process m a := by
    obtain ⟨⟨p, r, st, f, g⟩, l⟩ := m
    by_cases hs : Scheduler_state.TIMEOUT = st
    · subst hs
      by_cases ha : Scheduler_state.RESTART = a <;>
        cases f <;> simp [process, invoke, ha]
    · simp [process, hs]
  have hc : (process m a).calls = m.calls ++ (process m a).calls.drop m.calls.length ∧
      count_slot Slot.on_timeout ((process m a).calls.drop m.calls.length) ≤ 1 := by
    obtain ⟨⟨p, r, st, f, g⟩, l⟩ := m
    by_cases hs : Scheduler_state.TIMEOUT = st
    · subst hs
      by_cases ha : Scheduler_state.RESTART = a <;>
        cases f <;> simp [process, invoke, ha, count_slot]
    · simp [process, hs, count_slot]
  rw [h]
  exact ⟨rfl, rfl, hc.1, hc.2⟩

/-! ### C20: the pre-decrement at zero -/

/-- The stored result of `--remaining` is `(remaining - 1) mod 2 ^ w` over the integers. -/
theorem pre_decrement_int (w r : Nat) :
    ((pre_decrement w r : Nat) : Int) = ((r : Int) - 1) % (2 : Int) ^ w := by
  unfold pre_decrement
  have hpos : 1 ≤ r + 2 ^ w := by
    have : 0 < 2 ^ w := Nat.pow_pos (by decide)
    omega
  rw [Int.natCast_mod, Nat.cast_sub hpos]
  push_cast
  rw [show (r : Int) + 2 ^ w - 1 = ((r : Int) - 1) + 2 ^ w by ring, Int.add_emod_self]

/-- C20: for a RUNNING timer and an `unsigned long` of `w ≥ 1` bits, `count_down()` sets
`remaining` to `(remaining - 1) mod 2 ^ w`, returns that value, and moves to TIMEOUT if and only
if the new value is 0, staying RUNNING otherwise; when `remaining = 0` it sets `remaining` to
`2 ^ w - 1`, returns that value and stays RUNNING.  Such a timer is reached by `restart()` on the
placeholder timer and by `restart()` on a timer in TIMEOUT with `remaining = 0`. -/
theorem C20_count_down_wraps_modulo (w : Nat) (m : Sys) (hw : 1 ≤ w)
    (hs : m.self.state = Scheduler_state.RUNNING) :
    (m.self.remaining = 0 →
      (count_down w m).2.self.remaining = 2 ^ w - 1 ∧
      (count_down w m).1 = 2 ^ w - 1 ∧
      (count_down w m).2.self.state = Scheduler_state.RUNNING) ∧
    (((count_down w m).2.self.remaining : Nat) : Int)
      = ((m.self.remaining : Int) - 1) % (2 : Int) ^ w ∧
    (count_down w m).1 = (count_down w m).2.self.remaining ∧
    ((count_down w m).2.self.state = Scheduler_state.TIMEOUT ↔
      (count_down w m).2.self.remaining = 0) ∧
    ((count_down w m).2.self.remaining ≠ 0 →
      (count_down w m).2.self.state = Scheduler_state.RUNNING) ∧
    ((restart Scheduler_ctor0).self.state = Scheduler_state.RUNNING ∧
      (restart Scheduler_ctor0).self.remaining = 0) ∧
    (∀ t : Sys, t.self.state = Scheduler_state.TIMEOUT → t.self.remaining = 0 →
      (restart t).self.state = Scheduler_state.RUNNING ∧ (restart t).self.remaining = 0) := by
  have hrun := count_down_running w m hs
  have h2w : 2 ≤ 2 ^ w := by
    calc 2 = 2 ^ 1 := by norm_num
      _ ≤ 2 ^ w := Nat.pow_le_pow_right (by decide) hw
  refine ⟨?_, ?_, rfl, ?_, ?_, ?_, ?_⟩
  · intro h0
    have hne : ¬ (2 ^ w - 1 = 0) := by omega
    rw [count_down_fst, hrun, h0, pre_decrement_zero]
    simp [hne]
  · rw [hrun]
    exact pre_decrement_int w m.self.remaining
  · rw [hrun]
    by_cases h0 : pre_decrement w m.self.remaining = 0 <;> simp [h0]
  · rw [hrun]
    intro h0
    have h0 : ¬ (pre_decrement w m.self.remaining = 0) := h0
    simp [h0]
  · decide
  · intro t _ hr
    have h := restart_state_remaining t
    exact ⟨h.1, by rw [h.2, hr]⟩

/-- Witness for C20 with 32-bit `unsigned long` on the placeholder timer after `restart()`. -/
theorem C20_count_down_wraps_modulo_witness :
    (1 ≤ 32 ∧ (restart Scheduler_ctor0).self.state = Scheduler_state.RUNNING) ∧
    (((restart Scheduler_ctor0).self.remaining = 0 →
      (count_down 32 (restart Scheduler_ctor0)).2.self.remaining = 2 ^ 32 - 1 ∧
      (count_down 32 (restart Scheduler_ctor0)).1 = 2 ^ 32 - 1 ∧
      (count_down 32 (restart Scheduler_ctor0)).2.self.state = Scheduler_state.RUNNING) ∧
    (((count_down 32 (restart Scheduler_ctor0)).2.self.remaining : Nat) : Int)
      = (((restart Scheduler_ctor0).self.remaining : Int) - 1) % (2 : Int) ^ 32 ∧
    (count_down 32 (restart Scheduler_ctor0)).1 = (count_down 32 (restart Scheduler_ctor0)).2.self.remaining ∧
    ((count_down 32 (restart Scheduler_ctor0)).2.self.state = Scheduler_state.TIMEOUT ↔
      (count_down 32 (restart Scheduler_ctor0)).2.self.remaining = 0) ∧
    ((count_down 32 (restart Scheduler_ctor0)).2.self.remaining ≠ 0 →
      (count_down 32 (restart Scheduler_ctor0)).2.self.state = Scheduler_state.RUNNING) ∧
    ((restart Scheduler_ctor0).self.state = Scheduler_state.RUNNING ∧
      (restart Scheduler_ctor0).self.remaining = 0) ∧
    (∀ t : Sys, t.self.state = Scheduler_state.TIMEOUT → t.self.remaining = 0 →
      (restart t).self.state = Scheduler_state.RUNNING ∧ (restart t).self.remaining = 0)) :=
  ⟨⟨by decide, by decide⟩,
    C20_count_down_wraps_modulo 32 (restart Scheduler_ctor0) (by decide) (by decide)⟩

end Sched
